import Mathlib

/-
A shallow embedding of src/docs/multipass-setup.py: a script that holds a
fixed Markdown guide in a string constant, writes it to the fixed file
multipass_setup_guide.md in the current working directory, and prints a
fixed confirmation summary to standard output.  The filesystem is modelled
as a map from path strings to optional file contents, together with the
fallibility of the open and write calls; a run is modelled as the final
filesystem, an ordered event trace, and an optional I/O error.
-/

namespace MultipassSetup

/-- The guide text the script holds as a constant (src/docs/multipass-setup.py lines 2-472,
the `guide_content` triple-quoted literal, one list entry per line; the literal ends in a
final newline, reproduced by intercalating with a trailing empty entry). -/
def guide_content : String :=
  String.intercalate "\n" [
    "# Multipass Setup Guide: VM Management with Podman",
    "",
    "## Overview",
    "This guide provides complete instructions for setting up Multipass on macOS to manage Linux VMs with Docker-like workflow. Each VM can run containerized applications (like PostgreSQL) with full isolation and easy management.",
    "",
    "## Table of Contents",
    "1. [Installation](#installation)",
    "2. [Basic Setup](#basic-setup)",
    "3. [VM Configuration with Podman](#vm-configuration-with-podman)",
    "4. [VSCode Integration](#vscode-integration)",
    "5. [Common Operations](#common-operations)",
    "6. [Example Workflows](#example-workflows)",
    "7. [Troubleshooting](#troubleshooting)",
    "",
    "---",
    "",
    "## Installation",
    "",
    "### Install Multipass",
    "```bash",
    "# Install via Homebrew",
    "brew install --cask multipass",
    "",
    "# Verify installation",
    "multipass version",
    "```",
    "",
    "### Install VSCode Remote-SSH Extension",
    "```bash",
    "# Install Remote-SSH extension",
    "code --install-extension ms-vscode-remote.remote-ssh",
    "```",
    "",
    "---",
    "",
    "## Basic Setup",
    "",
    "### Create SSH Key (if needed)",
    "```bash",
    "# Generate SSH key if you don't have one",
    "ssh-keygen -t rsa -b 4096 -C \"your-email@example.com\"",
    "```",
    "",
    "### Basic VM Commands",
    "```bash",
    "# List available Ubuntu images",
    "multipass find",
    "",
    "# Launch a basic VM",
    "multipass launch --name test-vm --cpus 2 --memory 4G --disk 20G",
    "",
    "# List running VMs",
    "multipass list",
    "",
    "# Get VM information",
    "multipass info test-vm",
    "",
    "# Execute commands in VM",
    "multipass exec test-vm -- uname -a",
    "",
    "# Get shell access",
    "multipass shell test-vm",
    "",
    "# Stop/Start/Delete VMs",
    "multipass stop test-vm",
    "multipass start test-vm",
    "multipass delete test-vm",
    "multipass purge  # Permanently remove deleted VMs",
    "```",
    "",
    "---",
    "",
    "## VM Configuration with Podman",
    "",
    "### Create Cloud-Init Configuration",
    "Create a file called `podman-setup.yaml`:",
    "",
    "```yaml",
    "#cloud-config",
    "package_update: true",
    "packages:",
    "  - podman",
    "  - podman-compose",
    "  - git",
    "  - curl",
    "  - vim",
    "",
    "users:",
    "  - name: ubuntu",
    "    groups: sudo",
    "    shell: /bin/bash",
    "    sudo: ['ALL=(ALL) NOPASSWD:ALL']",
    "",
    "runcmd:",
    "  # Enable podman socket for rootless operation",
    "  - systemctl --user enable podman.socket --now",
    "  - loginctl enable-linger ubuntu",
    "",
    "  # Create workspace directory",
    "  - mkdir -p /home/ubuntu/workspace",
    "  - chown ubuntu:ubuntu /home/ubuntu/workspace",
    "",
    "write_files:",
    "  - path: /home/ubuntu/.bashrc_append",
    "    content: |",
    "      # Podman aliases for Docker-like experience",
    "      alias docker='podman'",
    "      alias docker-compose='podman-compose'",
    "    append: true",
    "    owner: ubuntu:ubuntu",
    "",
    "final_message: \"VM setup complete! Podman is ready for rootless containers.\"",
    "```",
    "",
    "### Launch VM with Configuration",
    "```bash",
    "# Launch VM with Podman setup",
    "multipass launch --name dev-vm --cpus 2 --memory 4G --disk 20G --cloud-init podman-setup.yaml",
    "",
    "# Wait for cloud-init to complete (check status)",
    "multipass exec dev-vm -- cloud-init status --wait",
    "```",
    "",
    "---",
    "",
    "## VSCode Integration",
    "",
    "### Configure SSH Access",
    "```bash",
    "# Get VM IP address",
    "VM_IP=$(multipass info dev-vm | grep IPv4 | awk '\x7bprint $2\x7d')",
    "echo \"VM IP: $VM_IP\"",
    "",
    "# Copy SSH key to VM",
    "multipass exec dev-vm -- bash -c \"mkdir -p ~/.ssh && echo '$(cat ~/.ssh/id_rsa.pub)' >> ~/.ssh/authorized_keys\"",
    "```",
    "",
    "### Add SSH Config",
    "Add to your `~/.ssh/config`:",
    "```bash",
    "Host dev-vm",
    "  HostName 192.168.64.X  # Replace with your VM's IP",
    "  User ubuntu",
    "  IdentityFile ~/.ssh/id_rsa",
    "  ServerAliveInterval 120",
    "```",
    "",
    "### Connect VSCode",
    "```bash",
    "# Open VSCode and connect to VM",
    "# Cmd+Shift+P → \"Remote-SSH: Connect to Host\" → Select \"dev-vm\"",
    "# Or use command line:",
    "code --remote ssh-remote+dev-vm /home/ubuntu/workspace",
    "```",
    "",
    "---",
    "",
    "## Common Operations",
    "",
    "### File Mounting (VM ↔ Host)",
    "```bash",
    "# Create host directory for VM data",
    "mkdir -p ~/multipass-vms/dev-vm",
    "",
    "# Mount VM directory to host (for accessing VM files from macOS)",
    "multipass mount dev-vm:/home/ubuntu/workspace ~/multipass-vms/dev-vm",
    "",
    "# Mount host directory to VM (for sharing files from macOS to VM)",
    "multipass mount ~/projects dev-vm:/home/ubuntu/host-projects",
    "",
    "# List active mounts",
    "multipass info dev-vm | grep Mounts",
    "```",
    "",
    "### Container Management in VM",
    "```bash",
    "# Run a simple container",
    "multipass exec dev-vm -- podman run --rm -it ubuntu:22.04 echo \"Hello from container\"",
    "",
    "# Run PostgreSQL container",
    "multipass exec dev-vm -- podman run -d \\",
    "  --name postgres \\",
    "  -e POSTGRES_PASSWORD=mysecret \\",
    "  -v pgdata:/var/lib/postgresql/data \\",
    "  -p 5432:5432 \\",
    "  postgres:15",
    "",
    "# List running containers",
    "multipass exec dev-vm -- podman ps",
    "",
    "# View container logs",
    "multipass exec dev-vm -- podman logs postgres",
    "",
    "# Stop and remove container",
    "multipass exec dev-vm -- podman stop postgres",
    "multipass exec dev-vm -- podman rm postgres",
    "```",
    "",
    "---",
    "",
    "## Example Workflows",
    "",
    "### Workflow 1: Development Environment with Database",
    "",
    "#### 1. Create VM Configuration (`dev-env.yaml`)",
    "```yaml",
    "#cloud-config",
    "package_update: true",
    "packages:",
    "  - podman",
    "  - podman-compose",
    "  - nodejs",
    "  - npm",
    "  - git",
    "",
    "write_files:",
    "  - path: /home/ubuntu/docker-compose.yml",
    "    content: |",
    "      version: '3.8'",
    "      services:",
    "        postgres:",
    "          image: postgres:15",
    "          environment:",
    "            POSTGRES_DB: myapp",
    "            POSTGRES_USER: developer",
    "            POSTGRES_PASSWORD: devpass123",
    "          volumes:",
    "            - pgdata:/var/lib/postgresql/data",
    "          ports:",
    "            - \"5432:5432\"",
    "        redis:",
    "          image: redis:7",
    "          ports:",
    "            - \"6379:6379\"",
    "      volumes:",
    "        pgdata:",
    "    owner: ubuntu:ubuntu",
    "",
    "runcmd:",
    "  - chown -R ubuntu:ubuntu /home/ubuntu",
    "```",
    "",
    "#### 2. Launch and Setup",
    "```bash",
    "# Launch VM",
    "multipass launch --name app-dev --cpus 4 --memory 8G --cloud-init dev-env.yaml",
    "",
    "# Wait for setup",
    "multipass exec app-dev -- cloud-init status --wait",
    "",
    "# Create host directory and mount",
    "mkdir -p ~/multipass-vms/app-dev",
    "multipass mount app-dev:/home/ubuntu/workspace ~/multipass-vms/app-dev",
    "",
    "# Start services",
    "multipass exec app-dev -- podman-compose up -d",
    "",
    "# Verify services",
    "multipass exec app-dev -- podman ps",
    "```",
    "",
    "#### 3. Connect and Develop",
    "```bash",
    "# Connect VSCode",
    "code --remote ssh-remote+app-dev /home/ubuntu/workspace",
    "",
    "# Or get shell",
    "multipass shell app-dev",
    "```",
    "",
    "### Workflow 2: Quick PostgreSQL Instance",
    "",
    "#### Create Script (`quick-postgres.sh`)",
    "```bash",
    "#!/bin/bash",
    "VM_NAME=\"pg-$\x7b1:-$(date +%s)\x7d\"",
    "HOST_DIR=\"$HOME/multipass-vms/$VM_NAME\"",
    "",
    "echo \"Creating PostgreSQL VM: $VM_NAME\"",
    "",
    "# Launch VM",
    "multipass launch --name \"$VM_NAME\" --cpus 2 --memory 4G",
    "",
    "# Install Podman",
    "multipass exec \"$VM_NAME\" -- bash -c \"",
    "  sudo apt update && sudo apt install -y podman",
    "  mkdir -p /home/ubuntu/pgdata",
    "\"",
    "",
    "# Create host directory and mount",
    "mkdir -p \"$HOST_DIR\"",
    "multipass mount \"$VM_NAME:/home/ubuntu\" \"$HOST_DIR\"",
    "",
    "# Start PostgreSQL",
    "multipass exec \"$VM_NAME\" -- podman run -d \\",
    "  --name postgres \\",
    "  -e POSTGRES_PASSWORD=secret123 \\",
    "  -v /home/ubuntu/pgdata:/var/lib/postgresql/data \\",
    "  -p 5432:5432 \\",
    "  postgres:15",
    "",
    "VM_IP=$(multipass info \"$VM_NAME\" | grep IPv4 | awk '\x7bprint $2\x7d')",
    "",
    "echo \"PostgreSQL VM '$VM_NAME' ready!\"",
    "echo \"Connection: psql -h $VM_IP -U postgres\"",
    "echo \"Data location: $HOST_DIR/pgdata\"",
    "echo \"Stop VM: multipass stop $VM_NAME\"",
    "echo \"Delete VM: multipass delete $VM_NAME && multipass purge\"",
    "```",
    "",
    "Usage:",
    "```bash",
    "chmod +x quick-postgres.sh",
    "./quick-postgres.sh my-project",
    "```",
    "",
    "---",
    "",
    "## Management Scripts",
    "",
    "### VM Lifecycle Script (`vm-manager.sh`)",
    "```bash",
    "#!/bin/bash",
    "",
    "VM_NAME=\"$1\"",
    "ACTION=\"$2\"",
    "",
    "case \"$ACTION\" in",
    "  create)",
    "    echo \"Creating VM: $VM_NAME\"",
    "    multipass launch --name \"$VM_NAME\" --cpus 2 --memory 4G --disk 20G",
    "    multipass exec \"$VM_NAME\" -- sudo apt update",
    "    multipass exec \"$VM_NAME\" -- sudo apt install -y podman",
    "    ;;",
    "  start)",
    "    echo \"Starting VM: $VM_NAME\"",
    "    multipass start \"$VM_NAME\"",
    "    ;;",
    "  stop)",
    "    echo \"Stopping VM: $VM_NAME\"",
    "    multipass stop \"$VM_NAME\"",
    "    ;;",
    "  delete)",
    "    echo \"Deleting VM: $VM_NAME\"",
    "    multipass delete \"$VM_NAME\"",
    "    multipass purge",
    "    ;;",
    "  shell)",
    "    echo \"Connecting to VM: $VM_NAME\"",
    "    multipass shell \"$VM_NAME\"",
    "    ;;",
    "  info)",
    "    multipass info \"$VM_NAME\"",
    "    ;;",
    "  *)",
    "    echo \"Usage: $0 <vm-name> <create|start|stop|delete|shell|info>\"",
    "    ;;",
    "esac",
    "```",
    "",
    "Usage:",
    "```bash",
    "chmod +x vm-manager.sh",
    "./vm-manager.sh my-vm create",
    "./vm-manager.sh my-vm start",
    "./vm-manager.sh my-vm shell",
    "./vm-manager.sh my-vm stop",
    "```",
    "",
    "---",
    "",
    "## Troubleshooting",
    "",
    "### Common Issues",
    "",
    "#### VM Won't Start",
    "```bash",
    "# Check VM status",
    "multipass list",
    "",
    "# View VM logs",
    "multipass exec vm-name -- dmesg",
    "",
    "# Restart Multipass daemon (macOS)",
    "sudo launchctl stop com.canonical.multipass.multipassd",
    "sudo launchctl start com.canonical.multipass.multipassd",
    "```",
    "",
    "#### SSH Connection Issues",
    "```bash",
    "# Regenerate SSH key in VM",
    "multipass exec vm-name -- ssh-keygen -f ~/.ssh/id_rsa -N \"\"",
    "",
    "# Re-copy public key",
    "multipass exec vm-name -- bash -c \"echo '$(cat ~/.ssh/id_rsa.pub)' >> ~/.ssh/authorized_keys\"",
    "```",
    "",
    "#### Container Issues",
    "```bash",
    "# Check Podman status",
    "multipass exec vm-name -- systemctl --user status podman",
    "",
    "# Restart Podman service",
    "multipass exec vm-name -- systemctl --user restart podman",
    "",
    "# Check container logs",
    "multipass exec vm-name -- podman logs container-name",
    "```",
    "",
    "#### Mount Issues",
    "```bash",
    "# Unmount and remount",
    "multipass umount vm-name",
    "multipass mount vm-name:/path/to/source ~/local/path",
    "",
    "# Check mount permissions",
    "multipass exec vm-name -- ls -la /mounted/path",
    "```",
    "",
    "### Performance Tips",
    "",
    "1. **Resource Allocation**: Start with 2 CPUs and 4GB RAM, adjust based on workload",
    "2. **Disk Space**: Use at least 20GB for development VMs",
    "3. **Multiple VMs**: Stop unused VMs to save resources",
    "4. **Container Storage**: Use volumes for persistent data",
    "",
    "### Cleaning Up",
    "```bash",
    "# Stop all VMs",
    "multipass list | grep Running | awk '\x7bprint $1\x7d' | xargs -I \x7b\x7d multipass stop \x7b\x7d",
    "",
    "# Delete all VMs",
    "multipass delete --all",
    "multipass purge",
    "",
    "# Clean up host directories",
    "rm -rf ~/multipass-vms/*",
    "```",
    "",
    "---",
    "",
    "## Quick Reference",
    "",
    "### Essential Commands",
    "```bash",
    "# VM Management",
    "multipass launch --name NAME",
    "multipass list",
    "multipass info NAME",
    "multipass shell NAME",
    "multipass stop/start/delete NAME",
    "",
    "# File Operations",
    "multipass mount SOURCE TARGET",
    "multipass transfer FILE VM:/path",
    "multipass umount VM",
    "",
    "# Container Operations (inside VM)",
    "podman run -d --name NAME IMAGE",
    "podman ps",
    "podman logs NAME",
    "podman stop/start/rm NAME",
    "```",
    "",
    "### Default Locations",
    "- VM Storage: `~/Library/Application Support/multipassd/`",
    "- SSH Config: `~/.ssh/config`",
    "- Cloud-init logs: `/var/log/cloud-init.log` (in VM)",
    "",
    "This guide provides everything needed to get started with Multipass for VM-based development with containerized applications.",
    ""]

/-- The fixed output filename the script opens for writing
(src/docs/multipass-setup.py line 475: open with mode w). -/
def output_path : String := "multipass_setup_guide.md"

/-- The arguments of the nine print calls, in order
(src/docs/multipass-setup.py lines 478-486); print appends a newline to each. -/
def print_args : List String :=
  [ "✅ Created comprehensive Multipass setup guide: multipass_setup_guide.md",
    "\nFile contains:",
    "- Complete installation instructions",
    "- VM configuration with Podman",
    "- VSCode remote development setup",
    "- File mounting (bidirectional)",
    "- Example workflows and scripts",
    "- Troubleshooting section",
    "- Quick reference commands" ]

/-- An I/O failure of the script's file handling: the open call fails (missing
parent directory, no write permission, invalid path) or the write of the
content fails (for example disk full). -/
inductive IoError where
  | openFailed (path : String)
  | writeFailed (path : String)
deriving DecidableEq

/-- The interpreter reports an uncaught error by printing a traceback that
names the failed call and its path. -/
def IoError.message : IoError → String
  | IoError.openFailed path => "OSError: cannot open for writing: " ++ path
  | IoError.writeFailed path => "OSError: write failed: " ++ path

/-- A model of the filesystem the script runs against: `contents` maps each
path to its file content (`none` when no file exists there), `openOk` says
whether a path can be opened for writing in mode w (its parent directory
exists and is writable), and `writeOk` says whether the write of the content
(including the flush when the file is closed) succeeds, e.g. the disk is not
full. -/
structure FileSystem where
  contents : String → Option String
  openOk : String → Bool
  writeOk : Bool

/-- Replace (or create) the file at `path` so that it holds `content`;
every other path keeps its content. -/
def FileSystem.setFile (fs : FileSystem) (path content : String) : FileSystem :=
  { fs with contents := fun p => if p = path then some content else fs.contents p }

/-- The observable events of a run, in program order. -/
inductive Event where
  | openFile (path : String)
  | writeFile (path : String) (data : String)
  | closeFile (path : String)
  | printLine (s : String)
deriving DecidableEq

/-- Whether an event is a print to standard output. -/
def Event.isPrint : Event → Bool
  | Event.printLine _ => true
  | _ => false

/-- Whether an event closes a file. -/
def Event.isClose : Event → Bool
  | Event.closeFile _ => true
  | _ => false

/-- Whether an event opens a file. -/
def Event.isOpen : Event → Bool
  | Event.openFile _ => true
  | _ => false

/-- Whether an event touches no filesystem path other than `path`
(print events touch none). -/
def Event.touchesOnly (path : String) : Event → Bool
  | Event.openFile p => p == path
  | Event.writeFile p _ => p == path
  | Event.closeFile p => p == path
  | Event.printLine _ => true

/-- The outcome of a run: the final filesystem, the ordered trace of
observable events, and the uncaught error, if any. -/
structure Outcome where
  fs : FileSystem
  trace : List Event
  err : Option IoError

/-- The script's file-writing and printing (src/docs/multipass-setup.py lines
474-486), with the open call's path argument made a parameter: open(path, w)
creates the file or truncates an existing one, f.write(guide_content) writes
the whole constant, the with-block closes the file, and then the nine print
calls run in order.  An exception from open aborts immediately; an exception
from the write aborts after the with-block has closed the (truncated) file;
either way no print call runs. -/
def emit (fs : FileSystem) (path : String) : Outcome :=
  if fs.openOk path then
    let opened := fs.setFile path ""
    if fs.writeOk then
      { fs := opened.setFile path guide_content
        trace := [Event.openFile path, Event.writeFile path guide_content,
                  Event.closeFile path] ++ print_args.map Event.printLine
        err := none }
    else
      { fs := opened
        trace := [Event.openFile path, Event.closeFile path]
        err := some (IoError.writeFailed path) }
  else
    { fs := fs, trace := [], err := some (IoError.openFailed path) }

/-- The script as actually invoked: its module body takes no arguments, reads
no environment, and always passes the one fixed filename to open. -/
def runScript (fs : FileSystem) : Outcome :=
  emit fs output_path

/-- The process exit status: 0 on success; 1 when an uncaught exception
reaches the interpreter boundary (the script installs no handler). -/
def exitCode (o : Outcome) : Nat :=
  if o.err.isSome then 1 else 0

/-- Everything a run prints to standard output, in order: each print argument
followed by a newline. -/
def stdoutOf (o : Outcome) : String :=
  String.join (o.trace.filterMap fun e =>
    match e with
    | Event.printLine s => some (s ++ "\n")
    | _ => none)

/-- What the operator sees on standard error: the interpreter's traceback for
the uncaught error, empty on success. -/
def stderrOf (o : Outcome) : String :=
  match o.err with
  | some e => "Traceback (most recent call last): " ++ e.message
  | none => ""

/-- Whether the character list `sub` is an initial run of `l`. -/
def charsStartWith : List Char → List Char → Bool
  | [], _ => true
  | _ :: _, [] => false
  | a :: as, b :: bs => a == b && charsStartWith as bs

/-- Whether the character list `sub` occurs as a contiguous run inside `l`. -/
def charsContain (sub : List Char) : List Char → Bool
  | [] => charsStartWith sub []
  | b :: bs => charsStartWith sub (b :: bs) || charsContain sub bs

/-- Whether `sub` occurs as a contiguous substring of `s`. -/
def occursIn (sub s : String) : Bool :=
  charsContain sub.data s.data

/-- Whether in trace `tr` no print event precedes the first close event. -/
def printsOnlyAfterClose (tr : List Event) : Bool :=
  (tr.takeWhile (fun e => !e.isClose)).all (fun e => !e.isPrint)

/-- The number of open attempts in a trace. -/
def countOpens (tr : List Event) : Nat :=
  (tr.filter Event.isOpen).length

/-- The full text a successful run prints to standard output. -/
def success_stdout : String :=
  String.join (print_args.map (fun s => s ++ "\n"))

/-- An empty filesystem on which every open and write succeeds. -/
def emptyFS : FileSystem :=
  { contents := fun _ => none, openOk := fun _ => true, writeOk := true }

/-- A filesystem on which no path can be opened for writing. -/
def lockedFS : FileSystem :=
  { contents := fun _ => none, openOk := fun _ => false, writeOk := true }

/-- A filesystem whose every path already holds a stale file. -/
def staleFS : FileSystem :=
  { contents := fun _ => some "old content", openOk := fun _ => true, writeOk := true }

/-- C1.  For every invocation with a writable target path (the open of the
path and the write both succeed), the operation succeeds and the resulting
file content at that path is exactly the guide constant, nothing prepended,
appended, or transformed. -/
theorem emit_success_writes_guide (fs : FileSystem) (path : String)
    (hopen : fs.openOk path = true) (hwrite : fs.writeOk = true) :
    (emit fs path).err = none ∧
    (emit fs path).fs.contents path = some guide_content := by
  simp [emit, hopen, hwrite, FileSystem.setFile]

/-- Witness for C1: on the empty filesystem, emitting to guide.md succeeds
and the file holds exactly the guide constant. -/
theorem emit_success_writes_guide_witness :
    emptyFS.openOk "guide.md" = true ∧ emptyFS.writeOk = true ∧
    ((emit emptyFS "guide.md").err = none ∧
     (emit emptyFS "guide.md").fs.contents "guide.md" = some guide_content) :=
  ⟨rfl, rfl, emit_success_writes_guide emptyFS "guide.md" rfl rfl⟩

/-- On a successful run both the open of the fixed path and the write
succeeded. -/
theorem success_conditions (fs : FileSystem) (h : (runScript fs).err = none) :
    fs.openOk output_path = true ∧ fs.writeOk = true := by
  cases hopen : fs.openOk output_path
  · simp [runScript, emit, hopen] at h
  · cases hwrite : fs.writeOk
    · simp [runScript, emit, hopen, hwrite] at h
    · exact ⟨rfl, rfl⟩

/-- Shape of a successful run: the file is truncated and rewritten with the
guide, the trace is open, write, close, then the nine prints, and there is no
error. -/
theorem runScript_success_outcome (fs : FileSystem)
    (hopen : fs.openOk output_path = true) (hwrite : fs.writeOk = true) :
    runScript fs =
      { fs := (fs.setFile output_path "").setFile output_path guide_content
        trace := [Event.openFile output_path,
                  Event.writeFile output_path guide_content,
                  Event.closeFile output_path] ++ print_args.map Event.printLine
        err := none } := by
  simp [runScript, emit, hopen, hwrite]

/-- Shape of a run whose open call fails: the filesystem is untouched, the
trace is empty, and the open error is reported. -/
theorem runScript_openFail_outcome (fs : FileSystem)
    (hopen : fs.openOk output_path = false) :
    runScript fs =
      { fs := fs, trace := [], err := some (IoError.openFailed output_path) } := by
  simp [runScript, emit, hopen]

/-- Shape of a run whose write call fails: the open has already truncated the
file, the with-block still closes it, and the write error is reported. -/
theorem runScript_writeFail_outcome (fs : FileSystem)
    (hopen : fs.openOk output_path = true) (hwrite : fs.writeOk = false) :
    runScript fs =
      { fs := fs.setFile output_path ""
        trace := [Event.openFile output_path, Event.closeFile output_path]
        err := some (IoError.writeFailed output_path) } := by
  simp [runScript, emit, hopen, hwrite]

/-- C2.  Running emit twice against the same path is idempotent: the second
invocation succeeds and fully replaces the first write, leaving the file
content exactly as after a single invocation (nothing is appended or
accumulated). -/
theorem emit_idempotent (fs : FileSystem) (path : String)
    (hopen : fs.openOk path = true) (hwrite : fs.writeOk = true) :
    (emit (emit fs path).fs path).err = none ∧
    (emit (emit fs path).fs path).fs.contents path =
      (emit fs path).fs.contents path := by
  simp [emit, hopen, hwrite, FileSystem.setFile]

/-- Witness for C2: emitting twice to guide.md on the empty filesystem
succeeds and leaves the same content as a single emit. -/
theorem emit_idempotent_witness :
    emptyFS.openOk "guide.md" = true ∧ emptyFS.writeOk = true ∧
    ((emit (emit emptyFS "guide.md").fs "guide.md").err = none ∧
     (emit (emit emptyFS "guide.md").fs "guide.md").fs.contents "guide.md" =
       (emit emptyFS "guide.md").fs.contents "guide.md") :=
  ⟨rfl, rfl, emit_idempotent emptyFS "guide.md" rfl rfl⟩

/-- C3.  The emit operation takes the output path as a parameter, and on
success a file exists at that given path whose full contents equal the fixed
guide text. -/
theorem emit_creates_file_at_path (fs : FileSystem) (path : String)
    (hopen : fs.openOk path = true) (hwrite : fs.writeOk = true) :
    (emit fs path).fs.contents path ≠ none ∧
    (emit fs path).fs.contents path = some guide_content := by
  simp [emit, hopen, hwrite, FileSystem.setFile]

/-- Witness for C3: emitting to guide.md on a filesystem whose paths hold
stale files creates a file at guide.md holding the guide text. -/
theorem emit_creates_file_at_path_witness :
    staleFS.openOk "guide.md" = true ∧ staleFS.writeOk = true ∧
    ((emit staleFS "guide.md").fs.contents "guide.md" ≠ none ∧
     (emit staleFS "guide.md").fs.contents "guide.md" = some guide_content) :=
  ⟨rfl, rfl, emit_creates_file_at_path staleFS "guide.md" rfl rfl⟩

/-- C4.  The script takes no arguments and no configuration: its run is the
single emit at the one fixed relative filename, and every file-touching event
of any run names only that fixed path, so there is no way to override the
target. -/
theorem runScript_fixed_path_only (fs : FileSystem) :
    runScript fs = emit fs output_path ∧
    (runScript fs).trace.all (Event.touchesOnly output_path) = true := by
  refine ⟨rfl, ?_⟩
  cases hopen : fs.openOk output_path
  · rw [runScript_openFail_outcome fs hopen]
    rfl
  · cases hwrite : fs.writeOk
    · rw [runScript_writeFail_outcome fs hopen hwrite]
      rfl
    · rw [runScript_success_outcome fs hopen hwrite]
      rfl

set_option maxRecDepth 20000 in
/-- C5.  On success, what the run prints to standard output is one fixed text
independent of the filesystem: it names the output file with a success
marker and enumerates the guide section labels (installation, VM
configuration, editor integration via VSCode, file mounting, example
workflows, troubleshooting, quick reference). -/
theorem runScript_confirmation_fixed (fs : FileSystem)
    (h : (runScript fs).err = none) :
    stdoutOf (runScript fs) = success_stdout ∧
    occursIn output_path success_stdout = true ∧
    occursIn "Created" success_stdout = true ∧
    occursIn "installation" success_stdout = true ∧
    occursIn "VM configuration" success_stdout = true ∧
    occursIn "VSCode" success_stdout = true ∧
    occursIn "File mounting" success_stdout = true ∧
    occursIn "workflows" success_stdout = true ∧
    occursIn "Troubleshooting" success_stdout = true ∧
    occursIn "Quick reference" success_stdout = true := by
  obtain ⟨hopen, hwrite⟩ := success_conditions fs h
  rw [runScript_success_outcome fs hopen hwrite]
  exact ⟨rfl, by decide, by decide, by decide, by decide, by decide,
         by decide, by decide, by decide, by decide⟩

/-- Witness for C5: the run on the empty filesystem succeeds and prints the
fixed confirmation text. -/
theorem runScript_confirmation_fixed_witness :
    (runScript emptyFS).err = none ∧
    (stdoutOf (runScript emptyFS) = success_stdout ∧
     occursIn output_path success_stdout = true ∧
     occursIn "Created" success_stdout = true ∧
     occursIn "installation" success_stdout = true ∧
     occursIn "VM configuration" success_stdout = true ∧
     occursIn "VSCode" success_stdout = true ∧
     occursIn "File mounting" success_stdout = true ∧
     occursIn "workflows" success_stdout = true ∧
     occursIn "Troubleshooting" success_stdout = true ∧
     occursIn "Quick reference" success_stdout = true) :=
  ⟨rfl, runScript_confirmation_fixed emptyFS rfl⟩

/-- C6.  Any I/O failure is not caught inside the script: the process exits
with a non-zero status, prints none of the confirmation lines, shows the
operator the underlying error in the traceback, and never retries the open. -/
theorem runScript_failure_propagates (fs : FileSystem) (e : IoError)
    (h : (runScript fs).err = some e) :
    exitCode (runScript fs) = 1 ∧
    stdoutOf (runScript fs) = "" ∧
    stderrOf (runScript fs) = "Traceback (most recent call last): " ++ e.message ∧
    countOpens (runScript fs).trace ≤ 1 := by
  cases hopen : fs.openOk output_path
  case false =>
    rw [runScript_openFail_outcome fs hopen] at h ⊢
    have he : IoError.openFailed output_path = e := by simpa using h
    subst he
    exact ⟨rfl, rfl, rfl, Nat.zero_le 1⟩
  case true =>
    cases hwrite : fs.writeOk
    case false =>
      rw [runScript_writeFail_outcome fs hopen hwrite] at h ⊢
      have he : IoError.writeFailed output_path = e := by simpa using h
      subst he
      exact ⟨rfl, rfl, rfl, Nat.le_refl 1⟩
    case true =>
      rw [runScript_success_outcome fs hopen hwrite] at h
      simp at h

/-- Witness for C6: on the filesystem where no path can be opened the run
fails, exits non-zero, prints nothing, and reports the open error. -/
theorem runScript_failure_propagates_witness :
    (runScript lockedFS).err = some (IoError.openFailed output_path) ∧
    (exitCode (runScript lockedFS) = 1 ∧
     stdoutOf (runScript lockedFS) = "" ∧
     stderrOf (runScript lockedFS) =
       "Traceback (most recent call last): " ++ (IoError.openFailed output_path).message ∧
     countOpens (runScript lockedFS).trace ≤ 1) :=
  ⟨rfl, runScript_failure_propagates lockedFS (IoError.openFailed output_path) rfl⟩

/-- C7.  When the target path cannot be opened for writing (missing parent
directory or no write permission), emit fails with the open error and the
filesystem is unchanged; in particular a previously absent file stays
absent. -/
theorem emit_open_failure_no_change (fs : FileSystem) (path : String)
    (h : fs.openOk path = false) :
    (emit fs path).err = some (IoError.openFailed path) ∧
    (emit fs path).fs = fs ∧
    (fs.contents path = none → (emit fs path).fs.contents path = none) := by
  refine ⟨by simp [emit, h], by simp [emit, h], fun hn => ?_⟩
  simpa [emit, h] using hn

/-- Witness for C7: emitting to /root/guide.md on the locked filesystem
fails with the open error and creates no file. -/
theorem emit_open_failure_no_change_witness :
    lockedFS.openOk "/root/guide.md" = false ∧
    ((emit lockedFS "/root/guide.md").err =
       some (IoError.openFailed "/root/guide.md") ∧
     (emit lockedFS "/root/guide.md").fs = lockedFS ∧
     (lockedFS.contents "/root/guide.md" = none →
       (emit lockedFS "/root/guide.md").fs.contents "/root/guide.md" = none)) :=
  ⟨rfl, emit_open_failure_no_change lockedFS "/root/guide.md" rfl⟩

/-- C8.  On success the events happen in the fixed order open, write of the
whole constant, close, then the prints: no confirmation line ever precedes
the completed, closed write. -/
theorem runScript_prints_follow_write (fs : FileSystem)
    (h : (runScript fs).err = none) :
    (runScript fs).trace =
      [Event.openFile output_path, Event.writeFile output_path guide_content,
       Event.closeFile output_path] ++ print_args.map Event.printLine ∧
    printsOnlyAfterClose (runScript fs).trace = true := by
  obtain ⟨hopen, hwrite⟩ := success_conditions fs h
  rw [runScript_success_outcome fs hopen hwrite]
  exact ⟨rfl, rfl⟩

/-- Witness for C8: on the empty filesystem the run succeeds with the fixed
trace and no print precedes the close. -/
theorem runScript_prints_follow_write_witness :
    (runScript emptyFS).err = none ∧
    ((runScript emptyFS).trace =
      [Event.openFile output_path, Event.writeFile output_path guide_content,
       Event.closeFile output_path] ++ print_args.map Event.printLine ∧
     printsOnlyAfterClose (runScript emptyFS).trace = true) :=
  ⟨rfl, runScript_prints_follow_write emptyFS rfl⟩

/-- C9.  Two-run noninterference: any two successful invocations, whatever
the prior filesystems, write the same bytes to the output file, print the
same standard output, and exit with the same status. -/
theorem runScript_two_run_determinism (fs1 fs2 : FileSystem)
    (h1 : (runScript fs1).err = none) (h2 : (runScript fs2).err = none) :
    (runScript fs1).fs.contents output_path =
      (runScript fs2).fs.contents output_path ∧
    stdoutOf (runScript fs1) = stdoutOf (runScript fs2) ∧
    exitCode (runScript fs1) = exitCode (runScript fs2) := by
  obtain ⟨ho1, hw1⟩ := success_conditions fs1 h1
  obtain ⟨ho2, hw2⟩ := success_conditions fs2 h2
  rw [runScript_success_outcome fs1 ho1 hw1, runScript_success_outcome fs2 ho2 hw2]
  refine ⟨?_, rfl, rfl⟩
  simp [FileSystem.setFile]

/-- Witness for C9: the runs on the empty filesystem and on the stale
filesystem both succeed and agree on file content, standard output and exit
status. -/
theorem runScript_two_run_determinism_witness :
    (runScript emptyFS).err = none ∧ (runScript staleFS).err = none ∧
    ((runScript emptyFS).fs.contents output_path =
       (runScript staleFS).fs.contents output_path ∧
     stdoutOf (runScript emptyFS) = stdoutOf (runScript staleFS) ∧
     exitCode (runScript emptyFS) = exitCode (runScript staleFS)) :=
  ⟨rfl, rfl, runScript_two_run_determinism emptyFS staleFS rfl rfl⟩

/-- C10.  Frame property: whatever the run does, every path other than the
fixed output filename keeps exactly the content it had before; no temporary
file, backup or log is produced. -/
theorem runScript_frame (fs : FileSystem) (p : String) (hp : p ≠ output_path) :
    (runScript fs).fs.contents p = fs.contents p := by
  cases hopen : fs.openOk output_path
  · rw [runScript_openFail_outcome fs hopen]
  · cases hwrite : fs.writeOk
    · rw [runScript_writeFail_outcome fs hopen hwrite]
      simp [FileSystem.setFile, hp]
    · rw [runScript_success_outcome fs hopen hwrite]
      simp [FileSystem.setFile, hp]

/-- Witness for C10: after the run on the stale filesystem the unrelated
path notes.txt still holds its old content. -/
theorem runScript_frame_witness :
    "notes.txt" ≠ output_path ∧
    (runScript staleFS).fs.contents "notes.txt" = staleFS.contents "notes.txt" :=
  ⟨by decide, runScript_frame staleFS "notes.txt" (by decide)⟩

end MultipassSetup
